import Mathlib

/-!
Verification of the Greeter CLI (`src/cli/src/main.rs`).

The program parses command-line arguments into a structure with one
optional string field `name` and prints a single greeting line:
`Hello, {name}!` when a name was supplied, `Hello, world!` otherwise.

The greeting decision (`main`, lines 15-19) is translated directly from
the source.  Argument parsing is performed by the external `clap` crate,
whose code is not part of this repository; it is modelled from the spec
(sections 4.1, 6 and 8): the parser extracts an optional `--name`/`-n`
value, taking the token following the flag verbatim; `--help`/`-h` and
`--version`/`-V` are handled by the collaborator itself, which prints
usage or version text and exits 0 without a greeting; any other token is
a parse failure that exits with a non-zero status without printing a
greeting.
-/

namespace Greeter

/-- The parsed argument structure: `struct Args { name: Option<String> }`. -/
structure Args where
  name : Option String
deriving Repr, DecidableEq

/-- Non-success outcomes of the argument-parsing collaborator: the three
malformed-input cases, plus `earlyExit`, under which the collaborator handled
the invocation itself (`--help`/`--version`, printing the given text and
exiting 0) and produced no `Args` value.  `earlyExit` is not a malformed-input
failure; it is grouped here only so the `Except` view `parseArgs` can be
total. -/
inductive ParseError where
  | unknownArg : String → ParseError
  | missingValue : String → ParseError
  | duplicateArg : String → ParseError
  | earlyExit : String → ParseError
deriving Repr, DecidableEq

/-- Outcome of the argument-parsing collaborator: a parsed `Args`, an early
exit that prints the given text and exits 0 (`--help`/`--version`), or a
malformed-input failure. -/
inductive ParseOutcome where
  | ok : Args → ParseOutcome
  | earlyExit : String → ParseOutcome
  | error : ParseError → ParseOutcome
deriving Repr

/-- Modelled from the spec: the usage text printed on `--help` (spec section
8: running with `--help` exits 0 and prints usage text instead of a greeting;
the exact text is owned by the collaborator and not specified further). -/
def usageText : String := "Usage: cli [OPTIONS]\n"

/-- Modelled from the spec: the text printed on `--version` (spec section 6:
`-V, --version` handled by the collaborator; the exact text is owned by the
collaborator and not specified further). -/
def versionText : String := "cli\n"

/-- Modelled from the spec: the argument-parsing collaborator (the external
`clap` crate, not part of this repository).  Per spec section 4.1 it extracts
an optional `--name`/`-n` value (short and long aliases); the token after the
flag is taken verbatim as the value.  Per spec sections 6 and 8 the
collaborator itself handles `--help`/`-h` and `--version`/`-V` in flag
position, printing usage or version text and exiting 0.  Any other token is
malformed input (spec section 7); a flag given twice or a trailing flag with
no value are likewise failures. -/
def parseTokens (acc : Option String) : List String → ParseOutcome
  | [] => .ok ⟨acc⟩
  | t :: rest =>
    if t = "--help" ∨ t = "-h" then
      .earlyExit usageText
    else if t = "--version" ∨ t = "-V" then
      .earlyExit versionText
    else if t = "--name" ∨ t = "-n" then
      match rest with
      | [] => .error (.missingValue t)
      | v :: rest' =>
        match acc with
        | some _ => .error (.duplicateArg t)
        | none => parseTokens (some v) rest'
    else
      .error (.unknownArg t)

/-- Modelled from the spec: the successful-parse view of the collaborator,
`.ok` exactly when parsing the invocation arguments (the tokens passed to the
program, excluding the program path) yields an `Args` value; any other
outcome — malformed input or an early help/version exit — is `.error`. -/
def parseArgs (argv : List String) : Except ParseError Args :=
  match parseTokens none argv with
  | .ok a => .ok a
  | .earlyExit text => .error (.earlyExit text)
  | .error e => .error e

/-- The greeting decision of `main` (lines 15-19): `Hello, {name}!` when a
name was parsed, `Hello, world!` otherwise. -/
def greet : Option String → String
  | some name => "Hello, " ++ name ++ "!"
  | none => "Hello, world!"

/-- Observable outcome of one process run: the full standard-output text and
the process exit code. -/
structure ProcessResult where
  stdout : String
  exitCode : Nat
deriving Repr, DecidableEq

/-- `main`: parse the arguments, then print the greeting followed by a
newline (`println!`) and exit 0.  On `--help`/`--version` the collaborator
prints its text and exits 0 with no greeting; on a parse failure it prints
a diagnostic (not to standard output) and exits non-zero (exit code 2). -/
def run (argv : List String) : ProcessResult :=
  match parseTokens none argv with
  | .ok args => ⟨greet args.name ++ "\n", 0⟩
  | .earlyExit text => ⟨text, 0⟩
  | .error _ => ⟨"", 2⟩

/-- The process environment (variable bindings) visible to a run.  `main`
reads the invocation arguments only; no environment variable, file or other
input is consulted, so the environment parameter is unused. -/
def Environment := List (String × String)

/-- A run of the program in a given environment.  The source's `main`
consults nothing but the argument list. -/
def runInEnv (argv : List String) (_env : Environment) : ProcessResult :=
  run argv

/-- Number of newline characters in a string (used to count output lines). -/
def countNewlines (s : String) : Nat :=
  s.data.count '\n'

lemma parseArgs_ok_iff (argv : List String) (a : Args) :
    parseArgs argv = .ok a ↔ parseTokens none argv = .ok a := by
  unfold parseArgs
  cases parseTokens none argv <;> simp

lemma run_help : run ["--help"] = ⟨usageText, 0⟩ := rfl

lemma countNewlines_append (s t : String) :
    countNewlines (s ++ t) = countNewlines s + countNewlines t := by
  simp [countNewlines, String.data_append, List.count_append]

lemma countNewlines_greet (o : Option String)
    (h : ∀ n, o = some n → '\n' ∉ n.data) : countNewlines (greet o) = 0 := by
  cases o with
  | none => decide
  | some n =>
    have hn : '\n' ∉ n.data := h n rfl
    show countNewlines ("Hello, " ++ n ++ "!") = 0
    rw [countNewlines_append, countNewlines_append,
      show countNewlines n = 0 from List.count_eq_zero.mpr hn]
    decide

/-- C1: for every string `s`, invoking the program with `--name s` prints
exactly `Hello, s!\n` to standard output (with `s` inserted verbatim) and
exits 0. -/
theorem run_long_name (s : String) :
    run ["--name", s] = ⟨"Hello, " ++ s ++ "!\n", 0⟩ := by
  simp [run, parseTokens, greet, String.append_assoc]

/-- C2: invoking the program with no `--name`/`-n` flag prints exactly
`Hello, world!\n` to standard output and exits 0. -/
theorem run_no_flag : run [] = ⟨"Hello, world!\n", 0⟩ := rfl

/-- C3, counterexample: invoking with `--name ""` succeeds and prints
`Hello, !\n`, not `Hello, world!\n`, so an empty name is not greeted with
the default greeting as the claim states. -/
theorem empty_name_not_default :
    (run ["--name", ""]).stdout = "Hello, !\n" ∧
    (run ["--name", ""]).exitCode = 0 ∧
    (run ["--name", ""]).stdout ≠ "Hello, world!\n" := by
  refine ⟨rfl, rfl, by decide⟩

/-- C3, amended: the output line is `Hello, {name}!` if and only if `name`
was provided (even when empty); only when `name` is absent is the output
`Hello, world!`. -/
theorem greeting_matches_name_presence (argv : List String) (a : Args)
    (h : parseArgs argv = .ok a) :
    (∃ n, a.name = some n ∧ (run argv).stdout = "Hello, " ++ n ++ "!\n") ∨
    (a.name = none ∧ (run argv).stdout = "Hello, world!\n") := by
  simp only [run, (parseArgs_ok_iff argv a).mp h]
  cases hn : a.name with
  | none => exact Or.inr ⟨rfl, by simp [greet]⟩
  | some n => exact Or.inl ⟨n, rfl, by simp [greet, String.append_assoc]⟩

/-- Witness for `greeting_matches_name_presence` at `--name Alice`. -/
theorem greeting_matches_name_presence_witness :
    parseArgs ["--name", "Alice"] = .ok ⟨some "Alice"⟩ ∧
    ((∃ n, (Args.mk (some "Alice")).name = some n ∧
      (run ["--name", "Alice"]).stdout = "Hello, " ++ n ++ "!\n") ∨
    ((Args.mk (some "Alice")).name = none ∧
      (run ["--name", "Alice"]).stdout = "Hello, world!\n")) :=
  ⟨rfl, greeting_matches_name_presence ["--name", "Alice"] ⟨some "Alice"⟩ rfl⟩

/-- C4: invoking with `--name ""` (empty string value) prints exactly
`Hello, !\n` and exits 0; the empty string gets no special-casing. -/
theorem run_empty_name : run ["--name", ""] = ⟨"Hello, !\n", 0⟩ := rfl

/-- C5: for every string `s`, the short form `-n s` produces a result
identical to the long form `--name s`. -/
theorem short_flag_eq_long_flag (s : String) :
    run ["-n", s] = run ["--name", s] := by
  simp [run, parseTokens]

/-- C6, counterexample: a successful invocation whose name contains a
newline character emits more than one line to standard output. -/
theorem one_line_counterexample :
    (run ["--name", "a\nb"]).exitCode = 0 ∧
    countNewlines (run ["--name", "a\nb"]).stdout ≠ 1 := by
  refine ⟨rfl, by decide⟩

/-- C6, amended: every successful invocation writes exactly one
newline-terminated greeting to standard output and exits 0; the output is
exactly one line whenever the provided name contains no newline
character. -/
theorem successful_run_output (argv : List String) (a : Args)
    (h : parseArgs argv = .ok a) :
    (run argv).exitCode = 0 ∧ (run argv).stdout = greet a.name ++ "\n" ∧
    ((∀ n, a.name = some n → '\n' ∉ n.data) →
      countNewlines (run argv).stdout = 1) := by
  have hr : run argv = ⟨greet a.name ++ "\n", 0⟩ := by
    simp [run, (parseArgs_ok_iff argv a).mp h]
  rw [hr]
  refine ⟨rfl, rfl, fun hn => ?_⟩
  show countNewlines (greet a.name ++ "\n") = 1
  rw [countNewlines_append, countNewlines_greet a.name hn]
  decide

/-- Witness for `successful_run_output` at the empty invocation. -/
theorem successful_run_output_witness :
    parseArgs [] = .ok ⟨none⟩ ∧
    ((run []).exitCode = 0 ∧ (run []).stdout = greet (Args.mk none).name ++ "\n" ∧
    ((∀ n, (Args.mk none).name = some n → '\n' ∉ n.data) →
      countNewlines (run []).stdout = 1)) :=
  ⟨rfl, successful_run_output [] ⟨none⟩ rfl⟩

/-- C7: a single token that looks like a flag but is none of the CLI's known
flags (`--name`/`-n`, `--help`/`-h`, `--version`/`-V`, spec section 6) makes
the run exit non-zero with no greeting printed to standard output. -/
theorem unknown_flag_fails (t : String) (_h1 : t.data.head? = some '-')
    (h2 : t ≠ "--name") (h3 : t ≠ "-n")
    (h4 : t ≠ "--help") (h5 : t ≠ "-h")
    (h6 : t ≠ "--version") (h7 : t ≠ "-V") :
    (run [t]).exitCode ≠ 0 ∧ (run [t]).stdout = "" := by
  have hchelp : ¬(t = "--help" ∨ t = "-h") := by simp [h4, h5]
  have hcver : ¬(t = "--version" ∨ t = "-V") := by simp [h6, h7]
  have hcname : ¬(t = "--name" ∨ t = "-n") := by simp [h2, h3]
  have hrun : run [t] = ⟨"", 2⟩ := by
    simp only [run, parseTokens, if_neg hchelp, if_neg hcver, if_neg hcname]
  rw [hrun]
  exact ⟨by decide, rfl⟩

/-- Witness for `unknown_flag_fails` at `--bogus`. -/
theorem unknown_flag_fails_witness :
    "--bogus".data.head? = some '-' ∧
    (run ["--bogus"]).exitCode ≠ 0 ∧ (run ["--bogus"]).stdout = "" :=
  ⟨by decide, unknown_flag_fails "--bogus" (by decide) (by decide) (by decide)
    (by decide) (by decide) (by decide) (by decide)⟩

/-- C8: the greeting logic is total: for every parsed `name` value it
produces a greeting of the shape `Hello, …!`, with no failure branch. -/
theorem greet_total (o : Option String) :
    ∃ mid, greet o = "Hello, " ++ mid ++ "!" := by
  cases o with
  | none => exact ⟨"world", rfl⟩
  | some n => exact ⟨n, rfl⟩

/-- C9: the program is deterministic: the outcome of a run depends on the
invocation arguments alone, not on the process environment. -/
theorem run_deterministic (argv : List String) (e₁ e₂ : Environment) :
    runInEnv argv e₁ = runInEnv argv e₂ := rfl

/-- C10: invoking with `--name world` produces a result identical to
invoking with no arguments at all. -/
theorem name_world_eq_default : run ["--name", "world"] = run [] := rfl

end Greeter
